import Mathlib

/-!
Verification of the chinazes-weather bot (src/main.py) against its
specification.  The Python module is shallowly embedded: JSON values become an
inductive `Value`, Python dicts become association lists, the JSON file backing
the profile store becomes a `FileState` (missing / corrupt / parsed), the
telegram job queue becomes an explicit job list with a per-chat handle map, and
every HTTP provider becomes a black-box function parameter (the spec treats
providers as external collaborators returning structured data or failing).
Handlers are translated statement by statement from the source.
-/

set_option autoImplicit false

namespace Chinazes

/-- JSON-like values stored in the per-user profile dict (floats are modelled
as rationals; no float arithmetic is performed on stored values). -/
inductive Value where
  | vnull
  | vbool (b : Bool)
  | vint (n : Int)
  | vnum (q : ℚ)
  | vstr (s : String)
  | vlist (l : List Value)

/-- Association-list lookup: first binding wins (Python dicts have unique
keys, so this agrees with `d[k]` / `d.get(k)`). -/
def alget {κ α : Type} [DecidableEq κ] (k : κ) : List (κ × α) → Option α
  | [] => none
  | (k2, v) :: t => if k2 = k then some v else alget k t

/-- Association-list update, the embedding of `d[k] = v`: replaces the
binding in place if the key is present, otherwise appends it (Python dicts
keep insertion order). -/
def alset {κ α : Type} [DecidableEq κ] (k : κ) (v : α) : List (κ × α) → List (κ × α)
  | [] => [(k, v)]
  | (k2, v2) :: t => if k2 = k then (k, v) :: t else (k2, v2) :: alset k v t

/-- The embedding of `d.setdefault(k, v)` (the dict after the call): inserts
`(k, v)` only when `k` is absent. -/
def alsetdefault {α : Type} (k : String) (v : α) (d : List (String × α)) :
    List (String × α) :=
  match alget k d with
  | some _ => d
  | none => d ++ [(k, v)]

/-- A per-user profile: the `Dict[str, Any]` stored under `db["users"]`. -/
abbrev Profile := List (String × Value)

/-- The parsed content of `users.db`: `{"users": {chat_id: {...}}}`. -/
structure Db where
  users : List (String × Profile)

/-- State of the backing file `users.db`: absent, present but not parseable
(corrupt), or parseable with content `db`. -/
inductive FileState where
  | missing
  | corrupt
  | parsed (db : Db)

/-- `load_db` (src/main.py:73-79): returns the parsed content when the file
exists and parses; on a missing file or a parse failure it logs and returns
the fresh store `{"users": {}}`.  Total: it never raises. -/
def load_db : FileState → Db
  | .parsed db => db
  | .missing => ⟨[]⟩
  | .corrupt => ⟨[]⟩

/-- `save_db` (src/main.py:81-82): writes the serialized store back; the file
afterwards parses to exactly `db`. -/
def save_db (db : Db) : FileState :=
  .parsed db

/-- `get_user` (src/main.py:84-86): `load_db()["users"].get(str(chat_id), {})`. -/
def get_user (chat_id : Int) (fs : FileState) : Profile :=
  (alget (toString chat_id) (load_db fs).users).getD []

/-- `set_user` (src/main.py:88-91): load, assign `db["users"][str(chat_id)]`,
save. -/
def set_user (chat_id : Int) (data : Profile) (fs : FileState) : FileState :=
  let db := load_db fs
  save_db ⟨alset (toString chat_id) data db.users⟩

/-- `DEFAULT_SEND_HOUR` (src/main.py:68). -/
def DEFAULT_SEND_HOUR : Int := 7

/-- The six `setdefault` calls of `ensure_defaults` (src/main.py:93-102),
applied to a profile in source order. -/
def ensure_defaults_profile (u0 : Profile) : Profile :=
  let u1 := alsetdefault "mode" (.vstr "city") u0
  let u2 := alsetdefault "city" (.vstr "Praha") u1
  let u3 := alsetdefault "coords" .vnull u2
  let u4 := alsetdefault "daily_hour" (.vint DEFAULT_SEND_HOUR) u3
  let u5 := alsetdefault "horo_enabled" .vnull u4
  alsetdefault "horo_sign" .vnull u5

/-- `ensure_defaults` (src/main.py:93-102): reads the profile, fills absent
fields with defaults, writes it back, and returns it (profile, new store). -/
def ensure_defaults (chat_id : Int) (fs : FileState) : Profile × FileState :=
  let u := ensure_defaults_profile (get_user chat_id fs)
  (u, set_user chat_id u fs)

/-! ## Scheduler (src/main.py:671-700)

`user_daily_jobs : Dict[int, Job]` maps a chat id to the job handle last
installed for it.  A `Job` handle is modelled by a fresh numeric id together
with the daily hour it fires at and a `removed` flag set by
`job.schedule_removal()`. -/

/-- One job handle ever created by `app.job_queue.run_daily`. -/
structure JobRec where
  id : Nat
  chat_id : Int
  hour : Int
  removed : Bool
deriving DecidableEq

/-- Scheduler state: a fresh-id counter, every handle ever created, and the
`user_daily_jobs` map from chat id to the installed handle's id. -/
structure Sched where
  next_id : Nat
  jobs : List JobRec
  user_daily_jobs : List (Int × Nat)
deriving DecidableEq

/-- `schedule_daily_for` (src/main.py:694-700): cancel the old handle for the
chat if the map holds one (`old.schedule_removal()`), create a fresh daily job
at `hour`, and install it in the map. -/
def schedule_daily_for (s : Sched) (chat_id : Int) (hour : Int) : Sched :=
  let s1 : Sched :=
    match alget chat_id s.user_daily_jobs with
    | some jid =>
        { s with jobs := s.jobs.map (fun j => if j.id = jid then { j with removed := true } else j) }
    | none => s
  let job : JobRec := ⟨s1.next_id, chat_id, hour, false⟩
  { next_id := s1.next_id + 1
    jobs := s1.jobs ++ [job]
    user_daily_jobs := alset chat_id s1.next_id s1.user_daily_jobs }

/-- The handles for chat `c` that are still live (created and never
cancelled). -/
def live_jobs_for (s : Sched) (c : Int) : List JobRec :=
  s.jobs.filter (fun j => !j.removed && j.chat_id = c)

/-- Well-formedness of the scheduler state: handle ids are fresh and
distinct, and every live handle is the one installed in `user_daily_jobs`
for its chat. -/
structure SchedWf (s : Sched) : Prop where
  ids_lt : ∀ j ∈ s.jobs, j.id < s.next_id
  ids_nodup : (s.jobs.map JobRec.id).Nodup
  live_tracked : ∀ j ∈ s.jobs, j.removed = false → alget j.chat_id s.user_daily_jobs = some j.id

/-! ## Python string and number builtins used by the handlers -/

/-- Python whitespace stripped by `str.strip()`. -/
def isPySpace (c : Char) : Bool :=
  c = ' ' || c = '\t' || c = '\n' || c = '\x0d' || c = '\x0b' || c = '\x0c'

/-- `str.strip()`. -/
def pyStrip (s : String) : String :=
  String.mk (((s.toList.dropWhile isPySpace).reverse.dropWhile isPySpace).reverse)

/-- `str.lower()` on the characters the bot handles (ASCII and Cyrillic). -/
def pyLowerChar (c : Char) : Char :=
  if 'A' ≤ c ∧ c ≤ 'Z' then Char.ofNat (c.toNat + 32)
  else if 0x410 ≤ c.toNat ∧ c.toNat ≤ 0x42F then Char.ofNat (c.toNat + 0x20)
  else if c.toNat = 0x401 then Char.ofNat 0x451
  else c

/-- Uppercasing for `str.capitalize()` (ASCII and Cyrillic). -/
def pyUpperChar (c : Char) : Char :=
  if 'a' ≤ c ∧ c ≤ 'z' then Char.ofNat (c.toNat - 32)
  else if 0x430 ≤ c.toNat ∧ c.toNat ≤ 0x44F then Char.ofNat (c.toNat - 0x20)
  else if c.toNat = 0x451 then Char.ofNat 0x401
  else c

/-- `str.lower()`. -/
def pyLowerStr (s : String) : String :=
  String.mk (s.toList.map pyLowerChar)

/-- `str.capitalize()`: first character uppercased, the rest lowercased. -/
def pyCapitalize (s : String) : String :=
  match s.toList with
  | [] => ""
  | c :: t => String.mk (pyUpperChar c :: t.map pyLowerChar)

/-- Alphabetic test backing `str.isalpha()` for the alphabets the zodiac
table uses (Latin and Cyrillic). -/
def pyIsAlphaChar (c : Char) : Bool :=
  ('a' ≤ c && c ≤ 'z') || ('A' ≤ c && c ≤ 'Z') ||
    (0x410 ≤ c.toNat && c.toNat ≤ 0x44F) || c.toNat = 0x451 || c.toNat = 0x401

/-- `str.isalpha()`: non-empty and all characters alphabetic. -/
def pyIsAlpha (s : String) : Bool :=
  decide (s ≠ "") && s.toList.all pyIsAlphaChar

/-- Does the list start with the given pattern? -/
def startsWithL {α : Type} [DecidableEq α] : List α → List α → Bool
  | _, [] => true
  | [], _ :: _ => false
  | a :: as, b :: bs => a = b && startsWithL as bs

/-- Substring occurrence on character lists. -/
def listHasSub {α : Type} [DecidableEq α] : List α → List α → Bool
  | _, [] => true
  | [], _ :: _ => false
  | a :: as, n => startsWithL (a :: as) n || listHasSub as n

/-- The Python expression `needle in hay` on strings. -/
def pyIn (needle hay : String) : Bool :=
  listHasSub hay.toList needle.toList

/-- `int(text)` for stripped decimal literals: optional sign then digits;
`none` when Python would raise `ValueError`. -/
def pyInt (s : String) : Option Int :=
  let t := pyStrip s
  match t.toList with
  | [] => none
  | c :: rest =>
    let signed : Bool × List Char :=
      if c = '-' then (true, rest)
      else if c = '+' then (false, rest)
      else (false, c :: rest)
    if signed.2.isEmpty then none
    else if signed.2.all Char.isDigit then
      let n : Nat := signed.2.foldl (fun a d => a * 10 + (d.toNat - 48)) 0
      some (if signed.1 then -(n : Int) else (n : Int))
    else none

/-- Python 3 `round()` on a rational: round half to even. -/
def pyRound (q : ℚ) : Int :=
  let f : Int := Rat.floor q
  let r : ℚ := q - (f : ℚ)
  if r < 1/2 then f
  else if 1/2 < r then f + 1
  else if f % 2 = 0 then f else f + 1

/-- `f"{h:02d}"`: zero-pad to width 2. -/
def fmt02 (h : Int) : String :=
  let s := toString h
  if s.length < 2 then "0" ++ s else s

/-- Python truthiness of `d.get(k)` for the JSON values a profile holds. -/
def pyTruthy : Option Value → Bool
  | none => false
  | some .vnull => false
  | some (.vbool b) => b
  | some (.vint n) => decide (n ≠ 0)
  | some (.vnum q) => decide (q ≠ 0)
  | some (.vstr s) => decide (s ≠ "")
  | some (.vlist l) => !l.isEmpty

/-- Python `d.get(k) == s` for a string literal `s`. -/
def pyEqStr (o : Option Value) (s : String) : Bool :=
  match o with
  | some (.vstr t) => t == s
  | _ => false

/-- The string content of a stored value (profiles store `city` and
`horo_sign` as strings; other shapes never reach the string positions). -/
def valueStr : Value → String
  | .vstr s => s
  | _ => ""

/-! ## Zodiac table (src/main.py:151-166) -/

/-- `ZODIAC_MAP_RU_EN` in source (insertion) order. -/
def ZODIAC_MAP_RU_EN : List (String × String) :=
  [("овен", "aries"), ("телец", "taurus"), ("близнецы", "gemini"), ("рак", "cancer"),
   ("лев", "leo"), ("дева", "virgo"), ("весы", "libra"), ("скорпион", "scorpio"),
   ("стрелец", "sagittarius"), ("козерог", "capricorn"), ("водолей", "aquarius"), ("рыбы", "pisces"),
   ("aries", "aries"), ("taurus", "taurus"), ("gemini", "gemini"), ("cancer", "cancer"),
   ("leo", "leo"), ("virgo", "virgo"), ("libra", "libra"), ("scorpio", "scorpio"),
   ("sagittarius", "sagittarius"), ("capricorn", "capricorn"), ("aquarius", "aquarius"),
   ("pisces", "pisces")]

/-- The zodiac emoji removed by the `.replace` chain in `normalize_sign`. -/
def ZODIAC_EMOJI : List Char :=
  ['♈', '♉', '♊', '♋', '♌', '♍', '♎', '♏', '♐', '♑', '♒', '♓']

/-- `normalize_sign` (src/main.py:161-166): strip, lowercase, drop zodiac
emoji, strip again, look the result up in the table. -/
def normalize_sign (text : String) : Option String :=
  let t := pyLowerStr (pyStrip text)
  let t2 := String.mk (t.toList.filter (fun c => !(ZODIAC_EMOJI.contains c)))
  alget (pyStrip t2) ZODIAC_MAP_RU_EN

/-- The Russian display name of a sign (src/main.py:686-687 and twins):
first table key mapping to `sign` that is alphabetic with length > 2,
capitalized; falling back to `sign.capitalize()`. -/
def sign_ru (sign : String) : String :=
  match (ZODIAC_MAP_RU_EN.filter
      (fun kv => kv.2 == sign && pyIsAlpha kv.1 && decide (2 < kv.1.length))).head? with
  | some kv => pyCapitalize kv.1
  | none => pyCapitalize sign

/-! ## Horoscope fallback chain (src/main.py:444-475)

Each provider call is modelled by an `Option String`: `none` when the request
raised or returned a non-success status, `some s` when it succeeded with
description text `s` (the `or ""` fallbacks make a missing field `some ""`).
`tr` is the external `translate_to_ru` collaborator, which never raises. -/

/-- `translate_to_ru(desc) or "Гороскоп недоступен."` applied to a non-empty
stripped description. -/
def horo_render (tr : String → String) (desc : String) : String :=
  let t := tr desc
  if t = "" then "Гороскоп недоступен." else t

/-- One provider step: succeed only when the call succeeded and the stripped
description is non-empty. -/
def horo_step (tr : String → String) (p : Option String) : Option String :=
  match p with
  | some s =>
    let desc := pyStrip s
    if desc = "" then none else some (horo_render tr desc)
  | none => none

/-- `fetch_horoscope` (src/main.py:444-475): try the Aztro mirror, then the
RapidAPI fallback (only when `RAPIDAPI_KEY` is set); if every step fails,
return the explicit unavailable text instead of raising. -/
def fetch_horoscope (tr : String → String) (has_rapidapi_key : Bool)
    (p1 p2 : Option String) : String :=
  match horo_step tr p1 with
  | some r => r
  | none =>
    match (if has_rapidapi_key then horo_step tr p2 else none) with
    | some r => r
    | none => "Не удалось получить гороскоп на сегодня."

/-! ## Weather providers and formatting (src/main.py:168-332)

The OpenWeather HTTP calls are external collaborators; a current-conditions
provider yields `Option Now` (`none` on error or non-200 status), a forecast
provider yields `Option Tomorrow`.  Temperatures, wind speeds and
precipitation probabilities are modelled as rationals. -/

/-- The tuple returned by `current_by_city` / `current_by_coords`:
`(name, temp, feels_like, wind_speed, description)`. -/
structure Now where
  name : String
  temp : ℚ
  feels : ℚ
  wind : ℚ
  desc : String

/-- The tuple returned by `tomorrow_by_city` / `tomorrow_by_coords`:
`(name, tmin, tmax, wind_noon, desc_noon, pop_max)`. -/
structure Tomorrow where
  name : String
  tmin : ℚ
  tmax : ℚ
  wind_noon : ℚ
  desc_noon : String
  pop_max : ℚ

/-- `rain_warning_line` (src/main.py:169-177). -/
def rain_warning_line (desc : String) (pop : Option ℚ) : String :=
  let d := pyLowerStr desc
  let has_rain := pyIn "дожд" d || pyIn "rain" d || pyIn "морос" d ||
    pyIn "гроза" d || pyIn "thunder" d
  match pop with
  | some p =>
    if decide ((3/10 : ℚ) ≤ p) || has_rain then
      "☔️ Вероятность осадков ~" ++ toString (pyRound (p * 100)) ++ "% — возьми зонт."
    else ""
  | none => if has_rain then "☔️ Возможен дождь — возьми зонт." else ""

/-- `get_clothing_advice` (src/main.py:262-306). -/
def get_clothing_advice (temp_c : ℚ) (description : String) (wind_speed : ℚ) : String :=
  let d := pyLowerStr description
  let is_rain := pyIn "дожд" d || pyIn "rain" d || pyIn "морос" d
  let is_snow := pyIn "снег" d || pyIn "snow" d
  let is_storm := pyIn "гроза" d || pyIn "thunderstorm" d
  let is_clear := pyIn "ясно" d || pyIn "clear" d
  let is_light := pyIn "небольш" d || pyIn "легк" d || pyIn "light" d || pyIn "морос" d
  let is_heavy := pyIn "сильн" d || pyIn "heavy" d || pyIn "ливень" d || pyIn "pour" d
  let windy := decide ((8 : ℚ) ≤ wind_speed)
  let very_windy := decide ((14 : ℚ) ≤ wind_speed)
  let base :=
    if temp_c ≤ 0 then
      "Очень холодно 🥶. Надень тёплое термобельё, сверху — шерстяной/флисовый слой и плотную зимнюю куртку. Обязательно шапка, шарф и тёплые перчатки. Обувь — зимняя с толстой подошвой."
    else if temp_c ≤ 5 then
      "Холодно ❄️. Тёплая куртка + свитер/худи. Шапка и перчатки желательны. Обувь — утеплённые ботинки или кроссовки на толстой подошве."
    else if temp_c ≤ 12 then
      "Прохладно 🌬. Лёгкая куртка/ветровка или худи, можно тонкий свитер слоем. Обувь — закрытая (кроссовки/ботинки)."
    else if temp_c ≤ 20 then
      "Умеренно 🌤. Футболка/лонгслив, при желании лёгкая накидка или тонкая куртка. Обувь — кроссовки, мокасины."
    else
      "Тепло/жарко ☀️. Лёгкая одежда из хлопка/льна: футболка, шорты/платье. Пей больше воды; по возможности избегай прямого солнца в полдень."
  let lines : List String :=
    [base]
    ++ (if is_rain then
          [if is_heavy then
            "🌧 Сильный дождь — возьми зонт или непромокаемый плащ, куртку с капюшоном и водостойкую обувь."
          else if is_light then
            "🌦 Возможна морось/небольшой дождь — зонт или лёгкий дождевик не помешают."
          else
            "☔️ Ожидается дождь — зонт/дождевик и водостойкая обувь."]
        else [])
    ++ (if is_snow then ["❄️ Снег — пригодятся непромокаемая тёплая обувь и утеплённые перчатки."] else [])
    ++ (if is_storm then ["⛈ Гроза — избегай открытых мест и высоких металлических конструкций."] else [])
    ++ (if very_windy then ["💨 Очень ветрено — надень ветрозащитную куртку/капюшон и прикрой уши/шею."]
        else if windy then ["💨 Ветрено — возьми ветровку или вещь с высоким воротником."] else [])
    ++ (if is_clear && !is_snow then ["😎 Ясная погода — возьми солнечные очки; бутылка воды пригодится."] else [])
    ++ (if is_clear && is_snow then ["😎☃️ Ясно и снежно — очки особенно пригодятся: снег сильно отражает свет."] else [])
    ++ (if decide ((25 : ℚ) < temp_c) && is_clear then ["🧴 Если можешь, используй SPF и держи при себе воду."] else [])
  String.intercalate "\n" lines

/-- `fmt_now` (src/main.py:309-319). -/
def fmt_now (name : String) (temp feels wind : ℚ) (desc : String) : String :=
  let advice := get_clothing_advice feels desc wind
  let rain_line := rain_warning_line desc none
  "🌤 Сейчас в " ++ name ++ ":\n" ++
  "Температура: " ++ toString (pyRound temp) ++ "°C (ощущается " ++ toString (pyRound feels) ++ "°C)\n" ++
  "Ветер: " ++ toString (pyRound wind) ++ " м/с\n" ++
  "Описание: " ++ pyCapitalize desc ++ "\n" ++
  rain_line ++ "\n\n" ++
  "👕 Совет:\n" ++ advice

/-- `fmt_tomorrow` (src/main.py:321-332). -/
def fmt_tomorrow (name : String) (tmin tmax wind_noon : ℚ) (desc_noon : String)
    (pop_max : ℚ) : String :=
  let mid := (tmin + tmax) / 2
  let advice := get_clothing_advice mid desc_noon wind_noon
  let rain_line := rain_warning_line desc_noon (some pop_max)
  "📅 Завтра в " ++ name ++ ":\n" ++
  "Мин/макс: " ++ toString (pyRound tmin) ++ "°C / " ++ toString (pyRound tmax) ++ "°C\n" ++
  "Ветер (около полудня): " ++ toString (pyRound wind_noon) ++ " м/с\n" ++
  "Описание: " ++ pyCapitalize desc_noon ++ "\n" ++
  rain_line ++ "\n\n" ++
  "👕 Совет:\n" ++ advice

/-! ## Noon-sample selection (src/main.py:215-236)

`tomorrow_by_city` filters the 3-hourly forecast list down to tomorrow's
samples (`pts`) and aggregates them.  The HTTP/date plumbing is external; the
aggregation over the already-filtered `pts` is embedded below. -/

/-- One forecast sample of tomorrow: its local hour and the fields the
aggregation reads. -/
structure Sample where
  hour : Nat
  temp_min : ℚ
  temp_max : ℚ
  wind : ℚ
  desc : String
  pop : ℚ
deriving DecidableEq

/-- The key of the near-noon selection:
`abs(datetime.fromtimestamp(i["dt"], TZ).hour - 12)`. -/
def noon_key (i : Sample) : Nat :=
  ((i.hour : Int) - 12).natAbs

/-- Python `min(x :: xs, key=key)`: scan keeping the current minimum,
replacing it only on a strictly smaller key (so the first minimum wins). -/
def py_min_by {α : Type} (key : α → Nat) (x : α) (xs : List α) : α :=
  xs.foldl (fun b a => if key a < key b then a else b) x

/-- The aggregation of `tomorrow_by_city` over tomorrow's samples
(src/main.py:225-233): `None` when `pts` is empty, otherwise min/max
temperature, wind and description of the sample nearest local noon, and the
maximal precipitation probability. -/
def tomorrow_from_pts (name : String) (pts : List Sample) : Option Tomorrow :=
  match pts with
  | [] => none
  | p :: rest =>
    let tmin := (rest.map Sample.temp_min).foldl min p.temp_min
    let tmax := (rest.map Sample.temp_max).foldl max p.temp_max
    let near12 := py_min_by noon_key p rest
    let pop_max := (rest.map Sample.pop).foldl max p.pop
    some ⟨name, tmin, tmax, near12.wind, near12.desc, pop_max⟩

/-! ## Message assembly and handlers (src/main.py:671-961)

Handlers thread the file-backed store (`FileState`) explicitly and record
their `schedule_daily_for` calls; replies are returned as strings.  Weather
and horoscope providers are function parameters. -/

/-- `get_today_msg` (src/main.py:703-713) on the defaults-filled profile:
pick the provider from the location mode, return the explicit failure line
when it yields nothing.  (When `coords` is truthy but not a two-element
numeric list — a state no handler writes — Python would raise on unpacking;
the model returns the failure line.) -/
def get_today_msg (by_city : String → Option Now) (by_coords : ℚ → ℚ → Option Now)
    (u : Profile) : String :=
  let res : Option Now :=
    if pyEqStr (alget "mode" u) "geo" && pyTruthy (alget "coords" u) then
      match alget "coords" u with
      | some (.vlist [.vnum lat, .vnum lon]) => by_coords lat lon
      | _ => none
    else
      by_city (valueStr ((alget "city" u).getD (.vstr "Praha")))
  match res with
  | none => "Не удалось получить прогноз."
  | some r => fmt_now r.name r.temp r.feels r.wind r.desc

/-- `get_tomorrow_msg` (src/main.py:715-725), same shape for tomorrow. -/
def get_tomorrow_msg (by_city_t : String → Option Tomorrow)
    (by_coords_t : ℚ → ℚ → Option Tomorrow) (u : Profile) : String :=
  let res : Option Tomorrow :=
    if pyEqStr (alget "mode" u) "geo" && pyTruthy (alget "coords" u) then
      match alget "coords" u with
      | some (.vlist [.vnum lat, .vnum lon]) => by_coords_t lat lon
      | _ => none
    else
      by_city_t (valueStr ((alget "city" u).getD (.vstr "Praha")))
  match res with
  | none => "Не удалось получить прогноз на завтра."
  | some r => fmt_tomorrow r.name r.tmin r.tmax r.wind_noon r.desc_noon r.pop_max

/-- The message composed by `send_daily_one` (src/main.py:674-692): the
daily-forecast header plus the weather block, then — only when the horoscope
preference and a sign are both set — the horoscope block fetched through
`fetch_horo`.  Total: composition never fails, and delivery errors are caught
by the surrounding `try`. -/
def send_daily_text (by_city : String → Option Now) (by_coords : ℚ → ℚ → Option Now)
    (fetch_horo : String → String) (u : Profile) : String :=
  let msg := get_today_msg by_city by_coords u
  let txt := "⏰ Ежедневный прогноз:\n\n" ++ msg
  if pyTruthy (alget "horo_enabled" u) && pyTruthy (alget "horo_sign" u) then
    let sign := valueStr ((alget "horo_sign" u).getD .vnull)
    let htxt := fetch_horo sign
    txt ++ "\n\n🔮 Гороскоп (" ++ sign_ru sign ++ "):\n" ++ htxt
  else txt

/-- The `context.chat_data` flags driving the conversation state
(src/main.py:825-949). -/
structure ChatData where
  awaiting_horo_yesno : Bool
  awaiting_zodiac_pick : Bool
  settings_mode : Bool
  awaiting_hour : Bool
  awaiting_city : Bool
  weather_mode : Bool
deriving DecidableEq

/-- The observable outcome of one `on_text` / `on_location` invocation: the
store afterwards, the conversation flags afterwards, the
`schedule_daily_for(chat_id, hour)` calls it made, and the reply text. -/
structure Effect where
  fs : FileState
  cd : ChatData
  sched : List (Int × Int)
  reply : String

/-- `on_text` (src/main.py:825-949), translated branch by branch in source
order.  Providers are passed in for the `/weather`-keyboard branch. -/
def on_text (by_city : String → Option Now) (by_coords : ℚ → ℚ → Option Now)
    (by_city_t : String → Option Tomorrow) (by_coords_t : ℚ → ℚ → Option Tomorrow)
    (chat_id : Int) (fs0 : FileState) (cd : ChatData) (text0 : String) : Effect :=
  let text := pyStrip text0
  let ed := ensure_defaults chat_id fs0
  let u := ed.1
  let fs := ed.2
  if cd.awaiting_horo_yesno then
    if pyLowerStr text = "да" then
      { fs := set_user chat_id (alset "horo_enabled" (.vbool true) u) fs
        cd := { cd with awaiting_horo_yesno := false, awaiting_zodiac_pick := true }
        sched := []
        reply := "Окей! Выбери знак зодиака:" }
    else if pyLowerStr text = "нет" then
      { fs := set_user chat_id (alset "horo_enabled" (.vbool false) u) fs
        cd := { cd with awaiting_horo_yesno := false }
        sched := []
        reply := "Гороскоп отключён. Можно включить в /settings." }
    else
      { fs := fs, cd := cd, sched := [], reply := "Ответь «Да» или «Нет»." }
  else if cd.awaiting_zodiac_pick then
    if pyLowerStr text = "отмена" then
      { fs := fs, cd := { cd with awaiting_zodiac_pick := false }, sched := []
        reply := "Ок, отменил." }
    else
      match normalize_sign text with
      | none =>
        { fs := fs, cd := cd, sched := [], reply := "Выбери знак из клавиатуры ниже." }
      | some sign =>
        { fs := set_user chat_id
            (alsetdefault "horo_enabled" (.vbool true) (alset "horo_sign" (.vstr sign) u)) fs
          cd := { cd with awaiting_zodiac_pick := false }
          sched := []
          reply := "Готово! Сохранил знак: " ++ sign_ru sign ++ "." }
  else if cd.settings_mode then
    if text = "⏰ Время рассылки" then
      { fs := fs, cd := { cd with awaiting_hour := true }, sched := []
        reply := "Выбери час (0–23) или «Ввести вручную»." }
    else if cd.awaiting_hour then
      if pyLowerStr text = "отмена" then
        { fs := fs, cd := { cd with awaiting_hour := false }, sched := [], reply := "Ок, отменил." }
      else if pyLowerStr text = "ввести вручную" then
        { fs := fs, cd := cd, sched := [], reply := "Напиши час числом (0–23)." }
      else
        match pyInt text with
        | some hour =>
          if 0 ≤ hour ∧ hour ≤ 23 then
            { fs := set_user chat_id (alset "daily_hour" (.vint hour) u) fs
              cd := { cd with awaiting_hour := false }
              sched := [(chat_id, hour)]
              reply := "✅ Ежедневная рассылка в " ++ fmt02 hour ++ ":00 (Europe/Prague)." }
          else
            { fs := fs, cd := cd, sched := []
              reply := "Час должен быть числом от 0 до 23. Попробуй ещё раз." }
        | none =>
          { fs := fs, cd := cd, sched := []
            reply := "Час должен быть числом от 0 до 23. Попробуй ещё раз." }
    else if text = "🌆 Изменить город" then
      { fs := fs, cd := { cd with awaiting_city := true }, sched := []
        reply := "Введи название города (например: Praha)." }
    else if cd.awaiting_city then
      let city := pyStrip text
      if city = "" then
        { fs := fs, cd := cd, sched := [], reply := "Введите корректное название города." }
      else
        { fs := set_user chat_id (alset "mode" (.vstr "city") (alset "city" (.vstr city) u)) fs
          cd := { cd with awaiting_city := false }
          sched := []
          reply := "Город установлен: " ++ city }
    else if text = "♈ Знак зодиака" then
      { fs := fs, cd := { cd with awaiting_zodiac_pick := true }, sched := []
        reply := "Выбери знак зодиака:" }
    else if text = "🔙 Назад" then
      { fs := fs, cd := { cd with settings_mode := false }, sched := []
        reply := "Ок. Используй команды меню: /weather /news /horoscope /events /settings" }
    else
      { fs := fs, cd := cd, sched := [], reply := "Выбери пункт меню настроек." }
  else if cd.weather_mode then
    let tl := pyLowerStr text
    if tl = "today" then
      let ed2 := ensure_defaults chat_id fs
      { fs := ed2.2, cd := cd, sched := [], reply := get_today_msg by_city by_coords ed2.1 }
    else if tl = "tomorrow" then
      let ed2 := ensure_defaults chat_id fs
      { fs := ed2.2, cd := cd, sched := []
        reply := get_tomorrow_msg by_city_t by_coords_t ed2.1 }
    else if tl = "praha" then
      { fs := set_user chat_id (alset "city" (.vstr "Praha") (alset "mode" (.vstr "city") u)) fs
        cd := cd, sched := [], reply := "Источник: Praha ✅" }
    else if tl = "🔙 назад" then
      { fs := fs, cd := { cd with weather_mode := false }, sched := []
        reply := "Ок. Используй команды меню: /weather /news /horoscope /events /settings" }
    else
      { fs := fs, cd := cd, sched := []
        reply := "Нажми today / tomorrow или выбери источник ниже." }
  else
    { fs := fs, cd := cd, sched := [], reply := "Команды: /weather /news /horoscope /events /settings" }

/-- `on_location` (src/main.py:952-961): set the mode to `geo` and store the
coordinates, then persist; returns the new store and the written profile. -/
def on_location (chat_id : Int) (fs0 : FileState) (lat lon : ℚ) : FileState × Profile :=
  let ed := ensure_defaults chat_id fs0
  let u1 := alset "coords" (.vlist [.vnum lat, .vnum lon]) (alset "mode" (.vstr "geo") ed.1)
  (set_user chat_id u1 ed.2, u1)

/-! ## Association-list lemmas -/

theorem alget_alset {κ α : Type} [DecidableEq κ] (k k2 : κ) (v : α) (m : List (κ × α)) :
    alget k (alset k2 v m) = if k2 = k then some v else alget k m := by
  induction m with
  | nil => by_cases h : k2 = k <;> simp [alset, alget, h]
  | cons p t ih =>
    obtain ⟨k3, v3⟩ := p
    by_cases h3 : k3 = k2
    · subst h3
      by_cases h : k3 = k <;> simp [alset, alget, h, ih]
    · by_cases h : k3 = k
      · subst h
        have : ¬ k2 = k3 := fun e => h3 e.symm
        simp [alset, alget, h3, this, ih]
      · simp [alset, alget, h3, h, ih]

theorem alget_alsetdefault {α : Type} (k k2 : String) (w : α) (d : List (String × α)) :
    alget k (alsetdefault k2 w d) =
      if k2 = k then some ((alget k d).getD w) else alget k d := by
  unfold alsetdefault
  cases hg : alget k2 d with
  | some v =>
    by_cases h : k2 = k
    · subst h; simp [hg]
    · simp [h]
  | none =>
    have append_get : ∀ (m : List (String × α)),
        alget k (m ++ [(k2, w)]) =
          match alget k m with
          | some v => some v
          | none => alget k [(k2, w)] := by
      intro m
      induction m with
      | nil => simp [alget]
      | cons p t ih =>
        obtain ⟨k3, v3⟩ := p
        by_cases h3 : k3 = k <;> simp [alget, h3, ih]
    by_cases h : k2 = k
    · subst h
      rw [append_get, hg]
      simp [alget]
    · rw [append_get]
      cases hk : alget k d with
      | some v => simp
      | none => simp [alget, h]

theorem alset_idem {κ α : Type} [DecidableEq κ] (k : κ) (v : α) (m : List (κ × α)) :
    alset k v (alset k v m) = alset k v m := by
  induction m with
  | nil => simp [alset]
  | cons p t ih =>
    obtain ⟨k2, v2⟩ := p
    by_cases h : k2 = k
    · simp [alset, h]
    · simp [alset, h, ih]

theorem alset_of_alget {κ α : Type} [DecidableEq κ] (k : κ) (v : α) (m : List (κ × α))
    (h : alget k m = some v) : alset k v m = m := by
  induction m with
  | nil => simp [alget] at h
  | cons p t ih =>
    obtain ⟨k2, v2⟩ := p
    by_cases hk : k2 = k
    · subst hk
      simp [alget] at h
      simp [alset, h]
    · simp [alget, hk] at h
      simp [alset, hk, ih h]

theorem alsetdefault_of_isSome {α : Type} (k : String) (w : α) (d : List (String × α))
    (h : (alget k d).isSome = true) : alsetdefault k w d = d := by
  unfold alsetdefault
  cases hg : alget k d with
  | some v => rfl
  | none => rw [hg] at h; simp at h

/-! ## Store lemmas -/

theorem load_db_save_db (db : Db) : load_db (save_db db) = db := rfl

theorem get_user_set_user (chat_id : Int) (p : Profile) (fs : FileState) :
    get_user chat_id (set_user chat_id p fs) = p := by
  unfold get_user set_user save_db
  simp [load_db, alget_alset]

theorem set_user_set_user (chat_id : Int) (p : Profile) (fs : FileState) :
    set_user chat_id p (set_user chat_id p fs) = set_user chat_id p fs := by
  unfold set_user save_db
  simp [load_db, alset_idem]

/-- The six profile keys filled in by `ensure_defaults`. -/
def DEFAULT_KEYS : List String :=
  ["mode", "city", "coords", "daily_hour", "horo_enabled", "horo_sign"]

theorem edp_get_mode (u0 : Profile) :
    alget "mode" (ensure_defaults_profile u0) = some ((alget "mode" u0).getD (.vstr "city")) := by
  simp [ensure_defaults_profile, alget_alsetdefault]

theorem edp_get_city (u0 : Profile) :
    alget "city" (ensure_defaults_profile u0) = some ((alget "city" u0).getD (.vstr "Praha")) := by
  simp [ensure_defaults_profile, alget_alsetdefault]

theorem edp_get_coords (u0 : Profile) :
    alget "coords" (ensure_defaults_profile u0) = some ((alget "coords" u0).getD .vnull) := by
  simp [ensure_defaults_profile, alget_alsetdefault]

theorem edp_get_daily_hour (u0 : Profile) :
    alget "daily_hour" (ensure_defaults_profile u0) =
      some ((alget "daily_hour" u0).getD (.vint DEFAULT_SEND_HOUR)) := by
  simp [ensure_defaults_profile, alget_alsetdefault]

theorem edp_get_horo_enabled (u0 : Profile) :
    alget "horo_enabled" (ensure_defaults_profile u0) =
      some ((alget "horo_enabled" u0).getD .vnull) := by
  simp [ensure_defaults_profile, alget_alsetdefault]

theorem edp_get_horo_sign (u0 : Profile) :
    alget "horo_sign" (ensure_defaults_profile u0) =
      some ((alget "horo_sign" u0).getD .vnull) := by
  simp [ensure_defaults_profile, alget_alsetdefault]

theorem edp_preserves (u0 : Profile) (k : String) (v : Value)
    (h : alget k u0 = some v) : alget k (ensure_defaults_profile u0) = some v := by
  simp only [ensure_defaults_profile, alget_alsetdefault]
  split_ifs <;> simp_all

theorem edp_other_keys (u0 : Profile) (k : String) (hk : ¬ k ∈ DEFAULT_KEYS) :
    alget k (ensure_defaults_profile u0) = alget k u0 := by
  simp only [DEFAULT_KEYS, List.mem_cons, List.mem_singleton] at hk
  push_neg at hk
  obtain ⟨h1, h2, h3, h4, h5, h6, -⟩ := hk
  simp only [ensure_defaults_profile, alget_alsetdefault]
  rw [if_neg (fun e => h6 e.symm), if_neg (fun e => h5 e.symm), if_neg (fun e => h4 e.symm),
    if_neg (fun e => h3 e.symm), if_neg (fun e => h2 e.symm), if_neg (fun e => h1 e.symm)]

theorem edp_idem (u : Profile) :
    ensure_defaults_profile (ensure_defaults_profile u) = ensure_defaults_profile u := by
  conv_lhs => rw [ensure_defaults_profile]
  rw [alsetdefault_of_isSome _ _ _ (by
      simp [alget_alsetdefault, edp_get_mode, edp_get_city, edp_get_coords,
        edp_get_daily_hour, edp_get_horo_enabled, edp_get_horo_sign]),
    alsetdefault_of_isSome _ _ _ (by
      simp [alget_alsetdefault, edp_get_mode, edp_get_city, edp_get_coords,
        edp_get_daily_hour, edp_get_horo_enabled, edp_get_horo_sign]),
    alsetdefault_of_isSome _ _ _ (by
      simp [alget_alsetdefault, edp_get_mode, edp_get_city, edp_get_coords,
        edp_get_daily_hour, edp_get_horo_enabled, edp_get_horo_sign]),
    alsetdefault_of_isSome _ _ _ (by
      simp [alget_alsetdefault, edp_get_mode, edp_get_city, edp_get_coords,
        edp_get_daily_hour, edp_get_horo_enabled, edp_get_horo_sign]),
    alsetdefault_of_isSome _ _ _ (by
      simp [alget_alsetdefault, edp_get_mode, edp_get_city, edp_get_coords,
        edp_get_daily_hour, edp_get_horo_enabled, edp_get_horo_sign]),
    alsetdefault_of_isSome _ _ _ (by
      simp [alget_alsetdefault, edp_get_mode, edp_get_city, edp_get_coords,
        edp_get_daily_hour, edp_get_horo_enabled, edp_get_horo_sign])]

/-! ## Claims about the profile store -/

/-- C5: for every subscriber id and every profile value, storing the profile
with `set_user` and reading it back with `get_user` returns a profile equal
in all fields to the one stored. -/
theorem c5_put_get_roundtrip (chat_id : Int) (p : Profile) (fs : FileState) :
    get_user chat_id (set_user chat_id p fs) = p :=
  get_user_set_user chat_id p fs

/-- C6: `load_db` is total (it never raises); on a missing backing file or on
content that does not parse it returns exactly the empty store
`{"users": {}}`, and on a parseable file it returns exactly the parsed
content — never a merge of partial data. -/
theorem c6_load_db_missing_or_corrupt_is_empty :
    load_db .missing = ⟨[]⟩ ∧ load_db .corrupt = ⟨[]⟩ ∧
      ∀ db : Db, load_db (.parsed db) = db :=
  ⟨rfl, rfl, fun _ => rfl⟩

/-- C10: `ensure_defaults` preserves every field already present in the
stored profile, fills exactly the absent ones among the six defaulted keys
with their defaults (`mode="city"`, `city="Praha"`, `coords=None`,
`daily_hour=7`, `horo_enabled=None`, `horo_sign=None`), leaves every other
key unchanged, and is idempotent on the store. -/
theorem c10_ensure_defaults_preserves_and_idempotent (chat_id : Int) (fs : FileState) :
    (∀ k v, alget k (get_user chat_id fs) = some v →
        alget k (ensure_defaults chat_id fs).1 = some v) ∧
    alget "mode" (ensure_defaults chat_id fs).1 =
      some ((alget "mode" (get_user chat_id fs)).getD (.vstr "city")) ∧
    alget "city" (ensure_defaults chat_id fs).1 =
      some ((alget "city" (get_user chat_id fs)).getD (.vstr "Praha")) ∧
    alget "coords" (ensure_defaults chat_id fs).1 =
      some ((alget "coords" (get_user chat_id fs)).getD .vnull) ∧
    alget "daily_hour" (ensure_defaults chat_id fs).1 =
      some ((alget "daily_hour" (get_user chat_id fs)).getD (.vint DEFAULT_SEND_HOUR)) ∧
    alget "horo_enabled" (ensure_defaults chat_id fs).1 =
      some ((alget "horo_enabled" (get_user chat_id fs)).getD .vnull) ∧
    alget "horo_sign" (ensure_defaults chat_id fs).1 =
      some ((alget "horo_sign" (get_user chat_id fs)).getD .vnull) ∧
    (∀ k, ¬ k ∈ DEFAULT_KEYS →
        alget k (ensure_defaults chat_id fs).1 = alget k (get_user chat_id fs)) ∧
    (ensure_defaults chat_id (ensure_defaults chat_id fs).2).2 =
      (ensure_defaults chat_id fs).2 := by
  simp only [ensure_defaults]
  refine ⟨fun k v h => edp_preserves _ k v h, edp_get_mode _, edp_get_city _,
    edp_get_coords _, edp_get_daily_hour _, edp_get_horo_enabled _, edp_get_horo_sign _,
    fun k hk => edp_other_keys _ k hk, ?_⟩
  rw [get_user_set_user, edp_idem, set_user_set_user]

/-- Witness for C10 at a concrete store: subscriber 3 already has
`city="Brno"`; after `ensure_defaults` the city is kept, the absent `mode`
gets its default, unrelated keys stay absent, and a second run leaves the
store unchanged. -/
theorem c10_witness :
    alget "city" (ensure_defaults 3 (.parsed ⟨[("3", [("city", .vstr "Brno")])]⟩)).1 =
      some (.vstr "Brno") ∧
    alget "mode" (ensure_defaults 3 (.parsed ⟨[("3", [("city", .vstr "Brno")])]⟩)).1 =
      some (.vstr "city") ∧
    alget "x" (ensure_defaults 3 (.parsed ⟨[("3", [("city", .vstr "Brno")])]⟩)).1 = none ∧
    (ensure_defaults 3 (ensure_defaults 3 (.parsed ⟨[("3", [("city", .vstr "Brno")])]⟩)).2).2 =
      (ensure_defaults 3 (.parsed ⟨[("3", [("city", .vstr "Brno")])]⟩)).2 := by
  have H := c10_ensure_defaults_preserves_and_idempotent 3
    (.parsed ⟨[("3", [("city", .vstr "Brno")])]⟩)
  obtain ⟨hpres, hmode, -, -, -, -, -, hother, hidem⟩ := H
  exact ⟨hpres "city" (.vstr "Brno") rfl, hmode.trans rfl,
    (hother "x" (by decide)).trans rfl, hidem⟩

/-! ## Claims about the content aggregators and the composed notification -/

/-- C2: in the horoscope fallback chain, the first provider whose (stripped)
description is non-empty determines the result — rendered through the
external translator with its own empty-translation fallback; when every step
fails or is empty (including when the fallback is absent because no API key
is set), the aggregator returns the explicit unavailable text.  The function
is total, so no exception escapes. -/
theorem c2_fetch_horoscope_first_valid_else_unavailable
    (tr : String → String) (has_rapidapi_key : Bool) (p1 p2 : Option String) :
    (∀ s, p1 = some s → pyStrip s ≠ "" →
        fetch_horoscope tr has_rapidapi_key p1 p2 = horo_render tr (pyStrip s)) ∧
    (horo_step tr p1 = none → has_rapidapi_key = true →
        ∀ s, p2 = some s → pyStrip s ≠ "" →
          fetch_horoscope tr has_rapidapi_key p1 p2 = horo_render tr (pyStrip s)) ∧
    (horo_step tr p1 = none →
        (if has_rapidapi_key then horo_step tr p2 else none) = none →
          fetch_horoscope tr has_rapidapi_key p1 p2 =
            "Не удалось получить гороскоп на сегодня.") := by
  refine ⟨?_, ?_, ?_⟩
  · intro s h1 hne
    subst h1
    simp [fetch_horoscope, horo_step, hne]
  · intro h1 hk s h2 hne
    subst h2
    subst hk
    have h2' : horo_step tr (some s) = some (horo_render tr (pyStrip s)) := by
      simp [horo_step, hne]
    simp [fetch_horoscope, h1, h2']
  · intro h1 h2
    simp [fetch_horoscope, h1, h2]

/-- Witness for C2: the first provider succeeds but with a
whitespace-only description, so the keyed fallback's text is returned. -/
theorem c2_witness :
    fetch_horoscope (fun s => s) true (some "  ") (some "ok") = "ok" := by
  have H := (c2_fetch_horoscope_first_valid_else_unavailable
    (fun s => s) true (some "  ") (some "ok")).2.1
  exact (H rfl rfl "ok" rfl (by decide)).trans rfl

/-- C8: when the horoscope preference is truthy but the stored sign is null,
the daily firing composes and returns the weather-only message for any
horoscope fetcher — in particular the result does not depend on the fetcher
at all, so no horoscope content is requested, and composition is total. -/
theorem c8_null_sign_skips_horoscope_block
    (by_city : String → Option Now) (by_coords : ℚ → ℚ → Option Now) (u : Profile)
    (hen : pyTruthy (alget "horo_enabled" u) = true)
    (hsign : alget "horo_sign" u = some .vnull) :
    ∀ fetch_horo : String → String,
      send_daily_text by_city by_coords fetch_horo u =
        "⏰ Ежедневный прогноз:\n\n" ++ get_today_msg by_city by_coords u := by
  intro fetch_horo
  simp [send_daily_text, hsign, pyTruthy]

/-- Witness for C8: horoscope enabled, sign null, weather provider failing —
the message is just the header plus the weather failure line, for an
arbitrary concrete fetcher. -/
theorem c8_witness :
    send_daily_text (fun _ => none) (fun _ _ => none) (fun _ => "X")
        [("horo_enabled", .vbool true), ("horo_sign", .vnull)] =
      "⏰ Ежедневный прогноз:\n\nНе удалось получить прогноз." := by
  have H := c8_null_sign_skips_horoscope_block (fun _ => none) (fun _ _ => none)
    [("horo_enabled", .vbool true), ("horo_sign", .vnull)] rfl rfl (fun _ => "X")
  exact H.trans rfl

/-- C3: with every weather provider failing and the horoscope enabled with a
non-empty sign, the daily message still composes: it is exactly the header,
the explicit weather failure line, and the horoscope block; in particular it
contains the fetched horoscope text and the failure line concerns only the
weather block. -/
theorem c3_primary_failure_keeps_optional_block
    (by_city : String → Option Now) (by_coords : ℚ → ℚ → Option Now)
    (fetch_horo : String → String) (u : Profile) (sign : String)
    (hcity : ∀ c, by_city c = none) (hcoords : ∀ a b, by_coords a b = none)
    (hen : pyTruthy (alget "horo_enabled" u) = true)
    (hsign : alget "horo_sign" u = some (.vstr sign)) (hs : sign ≠ "") :
    send_daily_text by_city by_coords fetch_horo u =
      "⏰ Ежедневный прогноз:\n\n" ++ "Не удалось получить прогноз." ++
        "\n\n🔮 Гороскоп (" ++ sign_ru sign ++ "):\n" ++ fetch_horo sign ∧
    (∃ a b, send_daily_text by_city by_coords fetch_horo u =
        a ++ "Не удалось получить прогноз." ++ b) ∧
    (∃ a, send_daily_text by_city by_coords fetch_horo u = a ++ fetch_horo sign) := by
  have hmsg : get_today_msg by_city by_coords u = "Не удалось получить прогноз." := by
    unfold get_today_msg
    by_cases hgeo : (pyEqStr (alget "mode" u) "geo" && pyTruthy (alget "coords" u)) = true
    · rw [if_pos hgeo]
      split
      · rw [hcoords]
      · rfl
    · rw [if_neg hgeo, hcity]
  have hps : pyTruthy (some (Value.vstr sign)) = true := by
    simp [pyTruthy, hs]
  have hq : send_daily_text by_city by_coords fetch_horo u =
      "⏰ Ежедневный прогноз:\n\n" ++ "Не удалось получить прогноз." ++
        "\n\n🔮 Гороскоп (" ++ sign_ru sign ++ "):\n" ++ fetch_horo sign := by
    simp only [send_daily_text, hmsg, hsign, hen, hps, Bool.and_true, Bool.true_and,
      eq_self_iff_true, if_true, Option.getD_some, valueStr]
  refine ⟨hq, ⟨"⏰ Ежедневный прогноз:\n\n",
      "\n\n🔮 Гороскоп (" ++ sign_ru sign ++ "):\n" ++ fetch_horo sign, ?_⟩,
    ⟨"⏰ Ежедневный прогноз:\n\n" ++ "Не удалось получить прогноз." ++
      "\n\n🔮 Гороскоп (" ++ sign_ru sign ++ "):\n", ?_⟩⟩
  · rw [hq]
    simp only [String.append_assoc]
  · rw [hq]

/-- Witness for C3: concrete subscriber with sign `leo`, failing weather
providers and a concrete horoscope text; the full message is computed. -/
theorem c3_witness :
    send_daily_text (fun _ => none) (fun _ _ => none) (fun _ => "Хороший день.")
        [("horo_enabled", .vbool true), ("horo_sign", .vstr "leo")] =
      "⏰ Ежедневный прогноз:\n\nНе удалось получить прогноз.\n\n🔮 Гороскоп (Лев):\nХороший день." := by
  have H := (c3_primary_failure_keeps_optional_block (fun _ => none) (fun _ _ => none)
    (fun _ => "Хороший день.") [("horo_enabled", .vbool true), ("horo_sign", .vstr "leo")]
    "leo" (fun _ => rfl) (fun _ _ => rfl) rfl rfl (by decide)).1
  exact H.trans rfl

/-! ## Claims about location switching (C7) and the hour dialog (C4) -/

/-- C7 counterexample: the claim says setting a geo location clears the
stored city value, leaving no mixed state.  On the concrete profile of
subscriber 5 with `city="Brno"`, `on_location` stores the coordinates and
flips the mode, but the city value is still `"Brno"` and both location kinds
are populated (truthy) afterwards — so the claimed clearing does not happen. -/
theorem c7_counterexample :
    alget "city" (on_location 5 (.parsed ⟨[("5",
        [("mode", .vstr "city"), ("city", .vstr "Brno"), ("coords", .vnull),
         ("daily_hour", .vint 7), ("horo_enabled", .vnull), ("horo_sign", .vnull)])]⟩) 50 14).2 =
      some (.vstr "Brno") ∧
    pyTruthy (alget "city" (on_location 5 (.parsed ⟨[("5",
        [("mode", .vstr "city"), ("city", .vstr "Brno"), ("coords", .vnull),
         ("daily_hour", .vint 7), ("horo_enabled", .vnull), ("horo_sign", .vnull)])]⟩) 50 14).2) =
      true ∧
    pyTruthy (alget "coords" (on_location 5 (.parsed ⟨[("5",
        [("mode", .vstr "city"), ("city", .vstr "Brno"), ("coords", .vnull),
         ("daily_hour", .vint 7), ("horo_enabled", .vnull), ("horo_sign", .vnull)])]⟩) 50 14).2) =
      true :=
  ⟨rfl, rfl, rfl⟩

/-- C7 (amended): switching the location kind updates the `mode` flag and the
new kind's value and retains the other kind's cached value; only one kind is
ever active, because the readers consult the coordinates exactly when
`mode == "geo"` and `coords` is truthy, and the city otherwise. -/
theorem c7_amended_mode_flag_selects_location
    (by_city by_city2 : String → Option Now) (by_coords by_coords2 : ℚ → ℚ → Option Now)
    (by_city_t : String → Option Tomorrow) (by_coords_t : ℚ → ℚ → Option Tomorrow)
    (chat_id : Int) (fs : FileState) (lat lon : ℚ) :
    (alget "mode" (on_location chat_id fs lat lon).2 = some (.vstr "geo") ∧
     alget "coords" (on_location chat_id fs lat lon).2 = some (.vlist [.vnum lat, .vnum lon]) ∧
     alget "city" (on_location chat_id fs lat lon).2 =
       alget "city" (ensure_defaults chat_id fs).1) ∧
    (∀ text : String, pyStrip text = text → text ≠ "⏰ Время рассылки" →
      text ≠ "🌆 Изменить город" → text ≠ "" →
      alget "mode" (get_user chat_id (on_text by_city by_coords by_city_t by_coords_t
          chat_id fs ⟨false, false, true, false, true, false⟩ text).fs) = some (.vstr "city") ∧
      alget "city" (get_user chat_id (on_text by_city by_coords by_city_t by_coords_t
          chat_id fs ⟨false, false, true, false, true, false⟩ text).fs) = some (.vstr text) ∧
      alget "coords" (get_user chat_id (on_text by_city by_coords by_city_t by_coords_t
          chat_id fs ⟨false, false, true, false, true, false⟩ text).fs) =
        alget "coords" (ensure_defaults chat_id fs).1) ∧
    (∀ u : Profile, (pyEqStr (alget "mode" u) "geo" && pyTruthy (alget "coords" u)) = true →
      get_today_msg by_city by_coords u = get_today_msg by_city2 by_coords u) ∧
    (∀ u : Profile, (pyEqStr (alget "mode" u) "geo" && pyTruthy (alget "coords" u)) = false →
      get_today_msg by_city by_coords u = get_today_msg by_city by_coords2 u) := by
  refine ⟨⟨?_, ?_, ?_⟩, ?_, ?_, ?_⟩
  · simp [on_location, alget_alset]
  · simp [on_location, alget_alset]
  · simp [on_location, alget_alset]
  · intro text htext hne1 hne2 hne3
    simp +decide [on_text, htext, hne1, hne2, hne3, get_user_set_user, alget_alset]
  · intro u hu
    simp only [get_today_msg, hu, eq_self_iff_true, if_true]
  · intro u hu
    simp only [get_today_msg, hu, Bool.false_eq_true, if_false]

/-- Witness for C7's amended claim at concrete inputs: a geo switch keeps the
stored city `"Brno"`, a city commit of `"Olomouc"` keeps the stored
coordinates, and on a geo-active profile the message does not depend on the
city provider. -/
theorem c7_amended_witness :
    alget "city" (on_location 5 (.parsed ⟨[("5",
        [("mode", .vstr "city"), ("city", .vstr "Brno"), ("coords", .vnull),
         ("daily_hour", .vint 7), ("horo_enabled", .vnull), ("horo_sign", .vnull)])]⟩) 50 14).2 =
      some (.vstr "Brno") ∧
    alget "coords" (get_user 5 (on_text (fun _ => none) (fun _ _ => none)
        (fun _ => none) (fun _ _ => none) 5
        (.parsed ⟨[("5",
          [("mode", .vstr "geo"), ("city", .vstr "Praha"),
           ("coords", .vlist [.vnum 50, .vnum 14]), ("daily_hour", .vint 7),
           ("horo_enabled", .vnull), ("horo_sign", .vnull)])]⟩)
        ⟨false, false, true, false, true, false⟩ "Olomouc").fs) =
      some (.vlist [.vnum 50, .vnum 14]) ∧
    get_today_msg (fun _ => some ⟨"X", 0, 0, 0, "x"⟩) (fun _ _ => none)
        [("mode", .vstr "geo"), ("coords", .vlist [.vnum 50, .vnum 14])] =
      get_today_msg (fun _ => none) (fun _ _ => none)
        [("mode", .vstr "geo"), ("coords", .vlist [.vnum 50, .vnum 14])] := by
  have H := c7_amended_mode_flag_selects_location
    (fun _ => some ⟨"X", 0, 0, 0, "x"⟩) (fun _ => none) (fun _ _ => none) (fun _ _ => none)
    (fun _ => none) (fun _ _ => none) 5
    (.parsed ⟨[("5",
      [("mode", .vstr "geo"), ("city", .vstr "Praha"),
       ("coords", .vlist [.vnum 50, .vnum 14]), ("daily_hour", .vint 7),
       ("horo_enabled", .vnull), ("horo_sign", .vnull)])]⟩) 50 14
  have H2 := c7_amended_mode_flag_selects_location
    (fun _ => none) (fun _ => none) (fun _ _ => none) (fun _ _ => none)
    (fun _ => none) (fun _ _ => none) 5
    (.parsed ⟨[("5",
      [("mode", .vstr "city"), ("city", .vstr "Brno"), ("coords", .vnull),
       ("daily_hour", .vint 7), ("horo_enabled", .vnull), ("horo_sign", .vnull)])]⟩) 50 14
  refine ⟨H2.1.2.2.trans rfl, ?_, H.2.2.1 [("mode", .vstr "geo"),
    ("coords", .vlist [.vnum 50, .vnum 14])] rfl⟩
  have h := (H.2.1 "Olomouc" rfl (by decide) (by decide) (by decide)).2.2
  exact h.trans rfl

/-- C4: in the awaiting-hour settings state, the out-of-range inputs `-1` and
`24` and the non-numeric input `abc` leave the store, the conversation flags
and the scheduler untouched and re-prompt with the bounds message; the input
`7` commits `daily_hour = 7` to the profile store, leaves the awaiting-hour
state, and makes exactly one `schedule_daily_for` call, for hour 7. -/
theorem c4_awaiting_hour_validation
    (by_city : String → Option Now) (by_coords : ℚ → ℚ → Option Now)
    (by_city_t : String → Option Tomorrow) (by_coords_t : ℚ → ℚ → Option Tomorrow)
    (chat_id : Int) (db : Db) (u : Profile) (cd : ChatData)
    (hkey : alget (toString chat_id) db.users = some u)
    (hnorm : ensure_defaults_profile u = u)
    (h1 : cd.awaiting_horo_yesno = false) (h2 : cd.awaiting_zodiac_pick = false)
    (h3 : cd.settings_mode = true) (h4 : cd.awaiting_hour = true) :
    (∀ t, t ∈ (["-1", "24", "abc"] : List String) →
        on_text by_city by_coords by_city_t by_coords_t chat_id (.parsed db) cd t =
          { fs := .parsed db, cd := cd, sched := []
            reply := "Час должен быть числом от 0 до 23. Попробуй ещё раз." }) ∧
    on_text by_city by_coords by_city_t by_coords_t chat_id (.parsed db) cd "7" =
      { fs := set_user chat_id (alset "daily_hour" (.vint 7) u) (.parsed db)
        cd := { cd with awaiting_hour := false }
        sched := [(chat_id, 7)]
        reply := "✅ Ежедневная рассылка в 07:00 (Europe/Prague)." } ∧
    alget "daily_hour" (get_user chat_id
        (on_text by_city by_coords by_city_t by_coords_t chat_id (.parsed db) cd "7").fs) =
      some (.vint 7) := by
  have hgu : get_user chat_id (.parsed db) = u := by
    simp [get_user, load_db, hkey]
  have hed : ensure_defaults chat_id (.parsed db) = (u, .parsed db) := by
    simp only [ensure_defaults, hgu, hnorm, set_user, load_db, save_db]
    rw [alset_of_alget _ _ _ hkey]
  have key7 : on_text by_city by_coords by_city_t by_coords_t chat_id (.parsed db) cd "7" =
      { fs := set_user chat_id (alset "daily_hour" (.vint 7) u) (.parsed db)
        cd := { cd with awaiting_hour := false }
        sched := [(chat_id, 7)]
        reply := "✅ Ежедневная рассылка в 07:00 (Europe/Prague)." } := by
    have hpi : pyInt (pyStrip "7") = some 7 := rfl
    simp +decide [on_text, hed, h1, h2, h3, h4, hpi]
  refine ⟨?_, key7, ?_⟩
  · intro t ht
    simp only [List.mem_cons, List.mem_singleton] at ht
    rcases ht with rfl | rfl | (rfl | hf)
    · have hpi : pyInt (pyStrip "-1") = some (-1) := rfl
      simp +decide [on_text, hed, h1, h2, h3, h4, hpi]
    · have hpi : pyInt (pyStrip "24") = some 24 := rfl
      simp +decide [on_text, hed, h1, h2, h3, h4, hpi]
    · have hpi : pyInt (pyStrip "abc") = none := rfl
      simp +decide [on_text, hed, h1, h2, h3, h4, hpi]
    · cases hf
  · rw [key7]
    simp [get_user_set_user, alget_alset]

/-- Witness for C4 at chat 1 with the fully defaulted profile: `24`
re-prompts and changes nothing, `7` commits hour 7 and schedules exactly
once. -/
theorem c4_witness :
    on_text (fun _ => none) (fun _ _ => none) (fun _ => none) (fun _ _ => none) 1
        (.parsed ⟨[("1",
          [("mode", .vstr "city"), ("city", .vstr "Praha"), ("coords", .vnull),
           ("daily_hour", .vint 7), ("horo_enabled", .vnull), ("horo_sign", .vnull)])]⟩)
        ⟨false, false, true, true, false, false⟩ "24" =
      { fs := .parsed ⟨[("1",
          [("mode", .vstr "city"), ("city", .vstr "Praha"), ("coords", .vnull),
           ("daily_hour", .vint 7), ("horo_enabled", .vnull), ("horo_sign", .vnull)])]⟩
        cd := ⟨false, false, true, true, false, false⟩
        sched := []
        reply := "Час должен быть числом от 0 до 23. Попробуй ещё раз." } ∧
    (on_text (fun _ => none) (fun _ _ => none) (fun _ => none) (fun _ _ => none) 1
        (.parsed ⟨[("1",
          [("mode", .vstr "city"), ("city", .vstr "Praha"), ("coords", .vnull),
           ("daily_hour", .vint 7), ("horo_enabled", .vnull), ("horo_sign", .vnull)])]⟩)
        ⟨false, false, true, true, false, false⟩ "7").sched = [(1, 7)] ∧
    alget "daily_hour" (get_user 1 (on_text (fun _ => none) (fun _ _ => none)
        (fun _ => none) (fun _ _ => none) 1
        (.parsed ⟨[("1",
          [("mode", .vstr "city"), ("city", .vstr "Praha"), ("coords", .vnull),
           ("daily_hour", .vint 7), ("horo_enabled", .vnull), ("horo_sign", .vnull)])]⟩)
        ⟨false, false, true, true, false, false⟩ "7").fs) = some (.vint 7) := by
  have H := c4_awaiting_hour_validation (fun _ => none) (fun _ _ => none)
    (fun _ => none) (fun _ _ => none) 1
    ⟨[("1", [("mode", .vstr "city"), ("city", .vstr "Praha"), ("coords", .vnull),
      ("daily_hour", .vint 7), ("horo_enabled", .vnull), ("horo_sign", .vnull)])]⟩
    [("mode", .vstr "city"), ("city", .vstr "Praha"), ("coords", .vnull),
      ("daily_hour", .vint 7), ("horo_enabled", .vnull), ("horo_sign", .vnull)]
    ⟨false, false, true, true, false, false⟩ rfl rfl rfl rfl rfl rfl
  exact ⟨H.1 "24" (by simp), by rw [H.2.1], H.2.2⟩

/-! ## Scheduler lemmas and C1 -/

theorem mark_id (jid : Nat) (j : JobRec) :
    (if j.id = jid then { j with removed := true } else j).id = j.id := by
  split <;> rfl

theorem schedule_next_id (s : Sched) (c : Int) (h : Int) :
    (schedule_daily_for s c h).next_id = s.next_id + 1 := by
  simp only [schedule_daily_for]
  split <;> rfl

theorem schedule_map (s : Sched) (c : Int) (h : Int) :
    alget c (schedule_daily_for s c h).user_daily_jobs = some s.next_id := by
  simp only [schedule_daily_for]
  split <;> simp [alget_alset]

theorem schedule_live (s : Sched) (c : Int) (h : Int) (hwf : SchedWf s) :
    live_jobs_for (schedule_daily_for s c h) c = [⟨s.next_id, c, h, false⟩] := by
  unfold live_jobs_for
  simp only [schedule_daily_for]
  cases hl : alget c s.user_daily_jobs with
  | none =>
    rw [List.filter_append]
    have hnil : List.filter (fun j => !j.removed && decide (j.chat_id = c)) s.jobs = [] := by
      rw [List.filter_eq_nil_iff]
      intro j hj hpj
      simp only [Bool.and_eq_true, Bool.not_eq_true', decide_eq_true_eq] at hpj
      obtain ⟨hr, hc⟩ := hpj
      have htr := hwf.live_tracked j hj hr
      rw [hc, hl] at htr
      exact Option.noConfusion htr
    rw [hnil]
    simp
  | some jid =>
    rw [List.filter_append]
    have hnil : List.filter (fun j => !j.removed && decide (j.chat_id = c))
        (s.jobs.map (fun j => if j.id = jid then { j with removed := true } else j)) = [] := by
      rw [List.filter_eq_nil_iff]
      intro x hx hpx
      obtain ⟨j0, hj0, rfl⟩ := List.mem_map.1 hx
      simp only [Bool.and_eq_true, Bool.not_eq_true', decide_eq_true_eq] at hpx
      obtain ⟨hr, hc⟩ := hpx
      by_cases hid : j0.id = jid
      · rw [if_pos hid] at hr
        exact Bool.noConfusion hr
      · rw [if_neg hid] at hr hc
        have htr := hwf.live_tracked j0 hj0 hr
        rw [hc, hl] at htr
        injection htr with hji
        exact hid hji.symm
    rw [hnil]
    simp

theorem schedule_wf (s : Sched) (c : Int) (h : Int) (hwf : SchedWf s) :
    SchedWf (schedule_daily_for s c h) := by
  cases hl : alget c s.user_daily_jobs with
  | none =>
    refine ⟨?_, ?_, ?_⟩ <;> simp only [schedule_daily_for, hl]
    · intro j hj
      rcases List.mem_append.1 hj with hj | hj
      · exact Nat.lt_succ_of_lt (hwf.ids_lt j hj)
      · simp at hj
        subst hj
        exact Nat.lt_succ_self _
    · rw [List.map_append, List.nodup_append]
      refine ⟨hwf.ids_nodup, List.nodup_singleton _, ?_⟩
      intro a ha hb
      simp only [List.map_cons, List.map_nil, List.mem_singleton] at hb
      obtain ⟨j, hj, rfl⟩ := List.mem_map.1 ha
      exact absurd hb (Nat.ne_of_lt (hwf.ids_lt j hj))
    · intro j hj hr
      rcases List.mem_append.1 hj with hj | hj
      · have htr := hwf.live_tracked j hj hr
        by_cases hcc : j.chat_id = c
        · rw [hcc, hl] at htr
          exact Option.noConfusion htr
        · rw [alget_alset, if_neg (fun e => hcc e.symm)]
          exact htr
      · simp at hj
        subst hj
        simp [alget_alset]
  | some jid =>
    refine ⟨?_, ?_, ?_⟩ <;> simp only [schedule_daily_for, hl]
    · intro j hj
      rcases List.mem_append.1 hj with hj | hj
      · obtain ⟨j0, hj0, rfl⟩ := List.mem_map.1 hj
        rw [mark_id]
        exact Nat.lt_succ_of_lt (hwf.ids_lt j0 hj0)
      · simp at hj
        subst hj
        exact Nat.lt_succ_self _
    · rw [List.map_append, List.nodup_append, List.map_map]
      have hmm : (JobRec.id ∘ fun j => if j.id = jid then { j with removed := true } else j) =
          JobRec.id := by
        funext j
        exact mark_id jid j
      rw [hmm]
      refine ⟨hwf.ids_nodup, List.nodup_singleton _, ?_⟩
      intro a ha hb
      simp only [List.map_cons, List.map_nil, List.mem_singleton] at hb
      obtain ⟨j, hj, rfl⟩ := List.mem_map.1 ha
      exact absurd hb (Nat.ne_of_lt (hwf.ids_lt j hj))
    · intro j hj hr
      rcases List.mem_append.1 hj with hj | hj
      · obtain ⟨j0, hj0, rfl⟩ := List.mem_map.1 hj
        by_cases hid : j0.id = jid
        · rw [if_pos hid] at hr
          exact Bool.noConfusion hr
        · rw [if_neg hid] at hr ⊢
          have htr := hwf.live_tracked j0 hj0 hr
          by_cases hcc : j0.chat_id = c
          · rw [hcc, hl] at htr
            injection htr with hji
            exact absurd hji.symm hid
          · rw [alget_alset, if_neg (fun e => hcc e.symm)]
            exact htr
      · simp at hj
        subst hj
        simp [alget_alset]

/-- C1: from any well-formed scheduler state, registering subscriber `c` at
`hour` and then again at `hour2` leaves exactly one live job handle for `c`
— the one held in the job map — and that job fires daily at `hour2`; the
handle installed by the first registration is cancelled, and well-formedness
is preserved. -/
theorem c1_reschedule_single_live_job (s : Sched) (c : Int) (hour hour2 : Int)
    (hwf : SchedWf s) :
    live_jobs_for (schedule_daily_for (schedule_daily_for s c hour) c hour2) c =
      [⟨s.next_id + 1, c, hour2, false⟩] ∧
    alget c (schedule_daily_for (schedule_daily_for s c hour) c hour2).user_daily_jobs =
      some (s.next_id + 1) ∧
    (∀ j ∈ (schedule_daily_for (schedule_daily_for s c hour) c hour2).jobs,
        j.id = s.next_id → j.removed = true) ∧
    SchedWf (schedule_daily_for (schedule_daily_for s c hour) c hour2) := by
  have hwf1 := schedule_wf s c hour hwf
  have hnid1 := schedule_next_id s c hour
  refine ⟨?_, ?_, ?_, schedule_wf _ c hour2 hwf1⟩
  · rw [schedule_live _ c hour2 hwf1, hnid1]
  · rw [schedule_map, hnid1]
  · intro j hj hid
    set s1 := schedule_daily_for s c hour with hs1
    have hm1 : alget c s1.user_daily_jobs = some s.next_id := schedule_map s c hour
    simp only [schedule_daily_for, hm1] at hj
    rcases List.mem_append.1 hj with hj | hj
    · obtain ⟨j0, hj0, rfl⟩ := List.mem_map.1 hj
      rw [mark_id] at hid
      rw [if_pos hid]
    · simp at hj
      subst hj
      rw [hnid1] at hid
      exact absurd hid (Nat.succ_ne_self _)

/-- Witness for C1 starting from the empty scheduler: registering chat 1 at
hour 7 then at hour 9 leaves the single live job at hour 9, held by the map. -/
theorem c1_witness :
    live_jobs_for (schedule_daily_for (schedule_daily_for ⟨0, [], []⟩ 1 7) 1 9) 1 =
      [⟨1, 1, 9, false⟩] ∧
    alget 1 (schedule_daily_for (schedule_daily_for ⟨0, [], []⟩ 1 7) 1 9).user_daily_jobs =
      some 1 := by
  have H := c1_reschedule_single_live_job ⟨0, [], []⟩ 1 7 9
    ⟨by simp, by simp, by simp⟩
  exact ⟨H.1, H.2.1⟩

/-! ## Noon-pick lemmas and C9 -/

theorem py_min_by_le {α : Type} (key : α → Nat) (x : α) (xs : List α) :
    ∀ y ∈ x :: xs, key (py_min_by key x xs) ≤ key y := by
  induction xs generalizing x with
  | nil =>
    intro y hy
    simp only [List.mem_singleton] at hy
    subst hy
    exact Nat.le_refl _
  | cons z t ih =>
    intro y hy
    have hstep : py_min_by key x (z :: t) =
        py_min_by key (if key z < key x then z else x) t := rfl
    have hhead : key (py_min_by key (if key z < key x then z else x) t) ≤
        key (if key z < key x then z else x) :=
      ih _ _ (List.mem_cons_self _ _)
    rcases List.mem_cons.1 hy with rfl | hy
    · rw [hstep]
      refine hhead.trans ?_
      split
      · exact Nat.le_of_lt (by assumption)
      · exact Nat.le_refl _
    · rcases List.mem_cons.1 hy with rfl | hy
      · rw [hstep]
        refine hhead.trans ?_
        split
        · exact Nat.le_refl _
        · exact Nat.le_of_not_lt (by assumption)
      · rw [hstep]
        exact ih _ y (List.mem_cons_of_mem _ hy)

theorem py_min_by_first {α : Type} (key : α → Nat) (x : α) (xs : List α) :
    (x :: xs).find? (fun a => key a == key (py_min_by key x xs)) =
      some (py_min_by key x xs) := by
  induction xs generalizing x with
  | nil =>
    simp [py_min_by, List.find?]
  | cons z t ih =>
    have hstep : py_min_by key x (z :: t) =
        py_min_by key (if key z < key x then z else x) t := rfl
    by_cases hzx : key z < key x
    · have hr : py_min_by key x (z :: t) = py_min_by key z t := by
        rw [hstep, if_pos hzx]
      have hrz : key (py_min_by key z t) ≤ key z :=
        py_min_by_le key z t z (List.mem_cons_self _ _)
      have hxne : (key x == key (py_min_by key z t)) = false :=
        beq_eq_false_iff_ne.2 (Nat.ne_of_gt (Nat.lt_of_le_of_lt hrz hzx))
      rw [hr]
      rw [@List.find?_cons_of_neg _ (fun a => key a == key (py_min_by key z t)) x (z :: t)
        (by simp [hxne])]
      exact ih z
    · have hr : py_min_by key x (z :: t) = py_min_by key x t := by
        rw [hstep, if_neg hzx]
      have hrx : key (py_min_by key x t) ≤ key x :=
        py_min_by_le key x t x (List.mem_cons_self _ _)
      have hih := ih x
      rw [hr]
      by_cases hx : (key x == key (py_min_by key x t)) = true
      · have hfx := @List.find?_cons_of_pos _
          (fun a => key a == key (py_min_by key x t)) x t hx
        have hxr : x = py_min_by key x t := Option.some.inj (hfx.symm.trans hih)
        rw [@List.find?_cons_of_pos _ (fun a => key a == key (py_min_by key x t)) x (z :: t) hx]
        exact congrArg some hxr
      · have hkxr : key x ≠ key (py_min_by key x t) := by
          intro e
          exact hx (beq_iff_eq.2 e)
        have hxf : (key x == key (py_min_by key x t)) = false := by
          simpa using hx
        have hzr : (key z == key (py_min_by key x t)) = false := by
          refine beq_eq_false_iff_ne.2 (fun e => hkxr (Nat.le_antisymm ?_ hrx))
          exact (Nat.le_of_not_lt hzx).trans (Nat.le_of_eq e)
        have htf : t.find? (fun a => key a == key (py_min_by key x t)) =
            some (py_min_by key x t) := by
          rw [@List.find?_cons_of_neg _ (fun a => key a == key (py_min_by key x t)) x t
            (by simp [hxf])] at hih
          exact hih
        rw [@List.find?_cons_of_neg _ (fun a => key a == key (py_min_by key x t)) x (z :: t)
          (by simp [hxf])]
        rw [@List.find?_cons_of_neg _ (fun a => key a == key (py_min_by key x t)) z t
          (by simp [hzr])]
        exact htf

/-- C9: on a non-empty list of tomorrow's forecast samples, the reported
description and wind come from the sample chosen by `min(pts, key=...)`;
that sample minimizes the distance of its local hour from noon, and it is
the first sample in provider order attaining that minimum (Python's `min`
keeps the earlier element on ties). -/
theorem c9_noon_sample_selection (name : String) (p : Sample) (rest : List Sample) :
    (∃ tmin tmax popm, tomorrow_from_pts name (p :: rest) =
        some ⟨name, tmin, tmax, (py_min_by noon_key p rest).wind,
          (py_min_by noon_key p rest).desc, popm⟩) ∧
    (∀ y ∈ p :: rest, noon_key (py_min_by noon_key p rest) ≤ noon_key y) ∧
    (p :: rest).find? (fun a => noon_key a == noon_key (py_min_by noon_key p rest)) =
      some (py_min_by noon_key p rest) :=
  ⟨⟨_, _, _, rfl⟩, py_min_by_le noon_key p rest, py_min_by_first noon_key p rest⟩

/-- Witness for C9 on a concrete tie: the 10:00 and 14:00 samples are both
two hours from noon; the earlier (10:00) sample's wind and description are
reported. -/
theorem c9_witness :
    tomorrow_from_pts "Praha" [⟨10, 1, 2, 3, "a", 0⟩, ⟨14, 1, 2, 5, "b", 0⟩] =
      some ⟨"Praha", 1, 2, 3, "a", 0⟩ ∧
    noon_key (py_min_by noon_key (⟨10, 1, 2, 3, "a", 0⟩ : Sample) [⟨14, 1, 2, 5, "b", 0⟩]) ≤
      noon_key (⟨14, 1, 2, 5, "b", 0⟩ : Sample) ∧
    [(⟨10, 1, 2, 3, "a", 0⟩ : Sample), ⟨14, 1, 2, 5, "b", 0⟩].find?
        (fun a => noon_key a == noon_key (py_min_by noon_key
          (⟨10, 1, 2, 3, "a", 0⟩ : Sample) [⟨14, 1, 2, 5, "b", 0⟩])) =
      some (py_min_by noon_key (⟨10, 1, 2, 3, "a", 0⟩ : Sample) [⟨14, 1, 2, 5, "b", 0⟩]) := by
  have H := c9_noon_sample_selection "Praha" ⟨10, 1, 2, 3, "a", 0⟩ [⟨14, 1, 2, 5, "b", 0⟩]
  exact ⟨rfl, H.2.1 ⟨14, 1, 2, 5, "b", 0⟩ (by simp), H.2.2⟩

end Chinazes
